import Mathlib

/-!
Shallow embedding of `SqliteNode.execute` from
`src/nodes/SqliteNode/SqliteNode.node.ts`.

The node's external collaborators (the n8n host, `JSON.parse`, the `sqlite3`
driver, and the filesystem) are modelled as explicit oracles and state:

* `Env` bundles the host context: the current working directory, the optional
  workflow id (`this.getWorkflow()?.id`), the `continueOnFail()` flag, the
  per-item parameter resolution `getNodeParameter(name, itemIndex, default)`
  (an `ItemParams` per item index), the behaviour of `JSON.parse`, and the
  behaviour of the driver calls `db.all` / `db.run` (each keyed by database
  path, query text and parsed argument bag).
* `FS` models the filesystem as lists of existing directories and files;
  `fs.existsSync` is list membership, `fs.unlinkSync` is erasure,
  `fs.mkdirSync {recursive}` adds the missing path components, and opening a
  `sqlite3.Database` handle creates the database file.
* `LoopState` carries what the per-item loop mutates: the input item payloads
  (mutated in place), the shared `spreadResults` list, the filesystem, and a
  log of the database paths for which a driver handle was opened.
-/

namespace SqliteNode

/-- JSON-like payload values carried by n8n items and database rows. -/
inductive Json where
  | null : Json
  | bool (b : Bool) : Json
  | num (n : Int) : Json
  | str (s : String) : Json
  | arr (elems : List Json) : Json
  | obj (fields : List (String × Json)) : Json

/-- The filesystem: which directories and which files currently exist. -/
structure FS where
  dirs : List String
  files : List String
deriving DecidableEq, Repr

/-- The node parameters, as resolved by `getNodeParameter` for one item index:
`dbName`, `query_type`, `query`, `args` (a JSON-encoded string) and `spread`. -/
structure ItemParams where
  dbName : String
  query_type : String
  query : String
  args : String
  spread : Bool
deriving DecidableEq, Repr

/-- The host context of one `execute` invocation, together with the oracles
for `JSON.parse` and the `sqlite3` driver.  `dbRun`, on success, returns the
driver's true affected-row count (`this.changes` of the `run` callback),
which the code ignores. -/
structure Env where
  cwd : String
  workflowIdOpt : Option String
  continueOnFail : Bool
  params : Nat → ItemParams
  parseJson : String → Except String Json
  dbAll : String → String → Json → Except String (List Json)
  dbRun : String → String → Json → Except String Nat

/-- `workflowInfo?.id || 'default_workflow'`: JavaScript `||` falls through to
the default when the id is absent (`undefined`/`null`) or the empty string. -/
def effectiveWorkflowId (widOpt : Option String) : String :=
  match widOpt with
  | none => "default_workflow"
  | some s => if s = "" then "default_workflow" else s

/-- `path.resolve('./databases', workflowId)`, resolved against the process's
current working directory. -/
def workflowDirOf (env : Env) : String :=
  env.cwd ++ "/databases/" ++ effectiveWorkflowId env.workflowIdOpt

/-- The `./databases` root directory, resolved against the cwd. -/
def databasesRootOf (env : Env) : String :=
  env.cwd ++ "/databases"

/-- `path.join(workflowDir, dbName + '.db')`. -/
def dbPathOf (env : Env) (dbName : String) : String :=
  workflowDirOf env ++ "/" ++ dbName ++ ".db"

/-- The fixed sentinel `{changes: 1}` produced by the mutating branch. -/
def changesOne : Json :=
  Json.obj [("changes", Json.num 1)]

/-- `{success: true, message: "Database <dbName> deleted successfully."}`. -/
def deleteSuccessMsg (dbName : String) : Json :=
  Json.obj [("success", Json.bool true),
            ("message", Json.str ("Database " ++ dbName ++ " deleted successfully."))]

/-- `{success: false, message: "Database <dbName> does not exist."}`. -/
def deleteMissingMsg (dbName : String) : Json :=
  Json.obj [("success", Json.bool false),
            ("message", Json.str ("Database " ++ dbName ++ " does not exist."))]

/-- `{error: error.message}`, written by the continue-on-fail catch branch. -/
def errorPayload (msg : String) : Json :=
  Json.obj [("error", Json.str msg)]

/-- State mutated by the per-item loop: the item payloads, the shared
`spreadResults` list, the filesystem, and the opened-handle log. -/
structure LoopState where
  items : List Json
  spreadResults : List Json
  fs : FS
  opened : List String

/-- File creation on opening a `sqlite3.Database` handle: the file comes to
exist if it did not already. -/
def addFileIfAbsent (files : List String) (p : String) : List String :=
  if files.contains p then files else files ++ [p]

/-- The body of the `try` block for one item (source lines 95-133): branch on
`query_type`, and either handle `DELETE_DATABASE` against the filesystem, or
parse `args`, open a driver handle and run the statement.  Returns the state
reached together with `some errorMessage` when the body throws (the state
records mutations that happened before the throw). -/
def tryItemP (env : Env) (p : ItemParams) (idx : Nat) (st : LoopState) :
    LoopState × Option String :=
  let dbPath := dbPathOf env p.dbName
  if p.query_type = "DELETE_DATABASE" then
    if st.fs.files.contains dbPath then
      ({ st with
          fs := { st.fs with files := st.fs.files.erase dbPath },
          items := st.items.set idx (deleteSuccessMsg p.dbName) }, none)
    else
      ({ st with items := st.items.set idx (deleteMissingMsg p.dbName) }, none)
  else
    match env.parseJson p.args with
    | Except.error e => (st, some e)
    | Except.ok argsVal =>
      let dbSt : LoopState :=
        { st with
            fs := { st.fs with files := addFileIfAbsent st.fs.files dbPath },
            opened := st.opened ++ [dbPath] }
      if p.query_type = "SELECT" then
        match env.dbAll dbPath p.query argsVal with
        | Except.error e => (dbSt, some e)
        | Except.ok rows =>
          ({ dbSt with spreadResults := dbSt.spreadResults ++ rows }, none)
      else
        match env.dbRun dbPath p.query argsVal with
        | Except.error e => (dbSt, some e)
        | Except.ok _ =>
          ({ dbSt with items := dbSt.items.set idx changesOne }, none)

/-- One iteration of the per-item loop: the `try` body wrapped in the
`catch` clause.  When the body throws and `continueOnFail()` holds, the
item's payload becomes `{error: <message>}` and the loop may continue;
otherwise the error propagates. -/
def processItem (env : Env) (idx : Nat) (st : LoopState) :
    LoopState × Option String :=
  match tryItemP env (env.params idx) idx st with
  | (st1, none) => (st1, none)
  | (st1, some e) =>
    if env.continueOnFail then
      ({ st1 with items := st1.items.set idx (errorPayload e) }, none)
    else
      (st1, some e)

/-- The per-item `for` loop, processing `count` items starting at `idx`.
An uncaught error stops the loop and is returned with the state reached. -/
def execLoop (env : Env) (idx : Nat) (count : Nat) (st : LoopState) :
    LoopState × Option String :=
  match count with
  | 0 => (st, none)
  | Nat.succ c =>
    match processItem env idx st with
    | (st1, none) => execLoop env (idx + 1) c st1
    | (st1, some e) => (st1, some e)

/-- `fs.mkdirSync(workflowDir, {recursive: true})`: creates the `databases`
root and the per-workflow directory, each unless it already exists. -/
def mkdirRecursive (dirs : List String) (root wdir : String) : List String :=
  let d1 := if dirs.contains root then dirs else dirs ++ [root]
  if d1.contains wdir then d1 else d1 ++ [wdir]

/-- Source lines 89-91: `if (!fs.existsSync(workflowDir)) fs.mkdirSync(...)`,
performed once before the per-item loop. -/
def ensureWorkflowDir (env : Env) (fs : FS) : FS :=
  let wdir := workflowDirOf env
  if fs.dirs.contains wdir then fs
  else { fs with dirs := mkdirRecursive fs.dirs (databasesRootOf env) wdir }

/-- Everything observable about one `execute` invocation: the returned output
(or the propagated error), plus the final item payloads, spread-results list,
filesystem, and opened-handle log. -/
structure ExecOutcome where
  result : Except String (List Json)
  items : List Json
  spreadResults : List Json
  fs : FS
  opened : List String

/-- The loop state at entry of the per-item loop: the input items as read by
`getInputData`, an empty `spreadResults` list, the filesystem after the
directory-creation step, and no handles opened yet. -/
def initialState (env : Env) (inputItems : List Json) (fs0 : FS) : LoopState :=
  { items := inputItems, spreadResults := [], fs := ensureWorkflowDir env fs0,
    opened := [] }

/-- The per-item loop of one invocation, run over all input items. -/
def loopOf (env : Env) (inputItems : List Json) (fs0 : FS) :
    LoopState × Option String :=
  execLoop env 0 inputItems.length (initialState env inputItems fs0)

/-- The final `return` (source line 143): an uncaught error propagates;
otherwise `spreadResults` is returned when non-empty, the (mutated) input
item list otherwise. -/
def finishOutcome (r : LoopState × Option String) : ExecOutcome :=
  { result :=
      match r.2 with
      | some e => Except.error e
      | none =>
        Except.ok
          (if r.1.spreadResults.length > 0 then r.1.spreadResults else r.1.items)
    items := r.1.items
    spreadResults := r.1.spreadResults
    fs := r.1.fs
    opened := r.1.opened }

/-- `SqliteNode.execute` (source lines 81-144): resolve the per-workflow
directory, create it if absent, run the per-item loop, and select the
returned output. -/
def execute (env : Env) (inputItems : List Json) (fs0 : FS) : ExecOutcome :=
  finishOutcome (loopOf env inputItems fs0)

/-!
Concrete fixtures used by the witness theorems below: a host context with
workflow id `wf1`, parameters targeting database `orders`, a driver oracle
returning one row for `db.all` and an affected-row count of 5 for `db.run`,
and a `JSON.parse` oracle accepting exactly the string `"{}"`.
-/

/-- A sample result row. -/
def rowA : Json := Json.obj [("a", Json.num 1)]

/-- Sample node parameters: a SELECT against database `orders`. -/
def baseParams : ItemParams :=
  { dbName := "orders", query_type := "SELECT", query := "SELECT * FROM t",
    args := "{}", spread := false }

/-- A sample host context. -/
def baseEnv : Env :=
  { cwd := "/cwd"
    workflowIdOpt := some "wf1"
    continueOnFail := false
    params := fun _ => baseParams
    parseJson := fun s =>
      if s = "{}" then Except.ok (Json.obj []) else Except.error "Unexpected token"
    dbAll := fun _ _ _ => Except.ok [rowA]
    dbRun := fun _ _ _ => Except.ok 5 }

/-- An empty filesystem. -/
def fsEmpty : FS := { dirs := [], files := [] }

/-- A loop state holding one input item over the empty filesystem. -/
def stBase : LoopState :=
  { items := [Json.null], spreadResults := [], fs := fsEmpty, opened := [] }

/-- A filesystem on which `orders.db` already exists for workflow `wf1`. -/
def fsWithDb : FS :=
  { dirs := ["/cwd/databases", "/cwd/databases/wf1"],
    files := ["/cwd/databases/wf1/orders.db"] }

/-- A loop state holding one input item over `fsWithDb`. -/
def stWithDb : LoopState :=
  { items := [Json.null], spreadResults := [], fs := fsWithDb, opened := [] }

/-- `baseEnv` with the query type switched to `DELETE_DATABASE`. -/
def delEnv : Env :=
  { baseEnv with
      params := fun _ => { baseParams with query_type := "DELETE_DATABASE" } }

/-- `baseEnv` with an `args` string that `JSON.parse` rejects. -/
def badArgsEnv : Env :=
  { baseEnv with params := fun _ => { baseParams with args := "not json" } }

/-- `badArgsEnv` with continue-on-fail enabled. -/
def cofEnv : Env :=
  { baseEnv with
      continueOnFail := true
      params := fun _ => { baseParams with args := "not json" } }

/-- `baseEnv` with the (unused) `spread` parameter flipped to true. -/
def spreadTrueEnv : Env :=
  { baseEnv with params := fun _ => { baseParams with spread := true } }

/-- `baseEnv` with no workflow id supplied by the host. -/
def noWidEnv : Env := { baseEnv with workflowIdOpt := none }

/-- Overwrite the `spread` parameter, leaving every other parameter alone. -/
def setSpread (p : ItemParams) (b : Bool) : ItemParams :=
  { p with spread := b }

/-- The `try` body never creates or removes directories. -/
theorem tryItemP_dirs (env : Env) (p : ItemParams) (idx : Nat) (st : LoopState) :
    ((tryItemP env p idx st).1).fs.dirs = st.fs.dirs := by
  unfold tryItemP
  dsimp only
  split
  · split <;> rfl
  · split
    · rfl
    · split
      · split <;> rfl
      · split <;> rfl

/-- One loop iteration never creates or removes directories. -/
theorem processItem_dirs (env : Env) (idx : Nat) (st : LoopState) :
    ((processItem env idx st).1).fs.dirs = st.fs.dirs := by
  unfold processItem
  split
  · next st1 heq =>
    have := tryItemP_dirs env (env.params idx) idx st
    rw [heq] at this
    exact this
  · next st1 e heq =>
    have := tryItemP_dirs env (env.params idx) idx st
    rw [heq] at this
    split <;> exact this

/-- The whole loop never creates or removes directories. -/
theorem execLoop_dirs (env : Env) (count idx : Nat) (st : LoopState) :
    ((execLoop env idx count st).1).fs.dirs = st.fs.dirs := by
  induction count generalizing idx st with
  | zero => rfl
  | succ c ih =>
    unfold execLoop
    cases h : processItem env idx st with
    | mk st1 eo =>
      have hd := processItem_dirs env idx st
      rw [h] at hd
      cases eo with
      | none => dsimp only; rw [ih (idx + 1) st1, hd]
      | some e => simpa using hd

/-- The `try` body only ever appends to the shared spread-results list. -/
theorem tryItemP_spread_extends (env : Env) (p : ItemParams) (idx : Nat)
    (st : LoopState) :
    ∃ tail, ((tryItemP env p idx st).1).spreadResults = st.spreadResults ++ tail := by
  unfold tryItemP
  dsimp only
  split
  · split <;> exact ⟨[], (List.append_nil _).symm⟩
  · split
    · exact ⟨[], (List.append_nil _).symm⟩
    · split
      · split
        · exact ⟨[], (List.append_nil _).symm⟩
        · next rows _ => exact ⟨rows, rfl⟩
      · split <;> exact ⟨[], (List.append_nil _).symm⟩

/-- One loop iteration only ever appends to the shared spread-results list. -/
theorem processItem_spread_extends (env : Env) (idx : Nat) (st : LoopState) :
    ∃ tail, ((processItem env idx st).1).spreadResults = st.spreadResults ++ tail := by
  unfold processItem
  split
  · next st1 heq =>
    have := tryItemP_spread_extends env (env.params idx) idx st
    rw [heq] at this
    exact this
  · next st1 e heq =>
    have := tryItemP_spread_extends env (env.params idx) idx st
    rw [heq] at this
    split <;> exact this

/-- The per-workflow directory exists after the directory-creation step. -/
theorem workflowDir_mem_ensure (env : Env) (fs : FS) :
    workflowDirOf env ∈ (ensureWorkflowDir env fs).dirs := by
  unfold ensureWorkflowDir mkdirRecursive
  by_cases h1 : fs.dirs.contains (workflowDirOf env) = true
  · rw [if_pos h1]
    simpa using h1
  · rw [if_neg h1]
    dsimp only
    by_cases h2 : (if fs.dirs.contains (databasesRootOf env) = true then fs.dirs
        else fs.dirs ++ [databasesRootOf env]).contains (workflowDirOf env) = true
    · rw [if_pos h2]
      simpa using h2
    · rw [if_neg h2]
      simp

/-- Claim C1: for every invocation of `execute` that returns (rather than
propagating an error), if the shared spread-results list is non-empty at the
end of the per-item loop the returned output is exactly that list (so the
payloads of items whose kind was not SELECT are dropped from the output);
otherwise the returned output is the input item list as mutated in place by
the loop. -/
theorem execute_output_selection (env : Env) (inputItems : List Json) (fs0 : FS)
    (out : List Json) (h : (execute env inputItems fs0).result = Except.ok out) :
    ((execute env inputItems fs0).spreadResults ≠ [] →
      out = (execute env inputItems fs0).spreadResults) ∧
    ((execute env inputItems fs0).spreadResults = [] →
      out = (execute env inputItems fs0).items) := by
  unfold execute finishOutcome at h ⊢
  dsimp only at h ⊢
  cases h2 : (loopOf env inputItems fs0).2 with
  | some e => rw [h2] at h; exact absurd h (by simp)
  | none =>
    rw [h2] at h
    dsimp only at h
    have h3 := Except.ok.inj h
    constructor
    · intro hne
      rw [if_pos (by simpa using List.length_pos.mpr hne)] at h3
      exact h3.symm
    · intro heq
      rw [heq] at h3
      rw [if_neg (by simp)] at h3
      exact h3.symm

/-- Witness for C1: a single successful SELECT invocation returns exactly the
spread-results list. -/
theorem execute_output_selection_witness :
    (execute baseEnv [Json.null] fsEmpty).result = Except.ok [rowA] ∧
    ((execute baseEnv [Json.null] fsEmpty).spreadResults ≠ [] →
      [rowA] = (execute baseEnv [Json.null] fsEmpty).spreadResults) :=
  ⟨rfl, (execute_output_selection baseEnv [Json.null] fsEmpty [rowA] rfl).1⟩

/-- Claim C2: for an input record whose kind is neither SELECT nor
DELETE_DATABASE and whose statement executes successfully, exactly one output
record is produced for that record — its item slot is overwritten with
`{changes: 1}` and the spread-results list is untouched — regardless of the
affected-row count `n` the driver reports. -/
theorem mutating_branch_changes_one (env : Env) (p : ItemParams) (idx : Nat)
    (st : LoopState) (a : Json) (n : Nat)
    (hsel : p.query_type ≠ "SELECT") (hdel : p.query_type ≠ "DELETE_DATABASE")
    (hparse : env.parseJson p.args = Except.ok a)
    (hrun : env.dbRun (dbPathOf env p.dbName) p.query a = Except.ok n) :
    tryItemP env p idx st =
      ({ st with
          fs := { st.fs with
                    files := addFileIfAbsent st.fs.files (dbPathOf env p.dbName) },
          opened := st.opened ++ [dbPathOf env p.dbName],
          items := st.items.set idx changesOne }, none) := by
  unfold tryItemP
  dsimp only
  rw [if_neg hdel, hparse]
  dsimp only
  rw [if_neg hsel, hrun]

/-- Witness for C2: an INSERT whose driver reports 5 affected rows still
produces the single sentinel record `{changes: 1}`. -/
theorem mutating_branch_changes_one_witness :
    tryItemP baseEnv { baseParams with query_type := "INSERT" } 0 stBase =
      ({ stBase with
          fs := { stBase.fs with
                    files := addFileIfAbsent stBase.fs.files (dbPathOf baseEnv "orders") },
          opened := stBase.opened ++ [dbPathOf baseEnv "orders"],
          items := stBase.items.set 0 changesOne }, none) :=
  mutating_branch_changes_one baseEnv { baseParams with query_type := "INSERT" }
    0 stBase (Json.obj []) 5 (by decide) (by decide) rfl rfl

/-- Claim C3: a successful SELECT returning `rows` appends exactly those rows,
in order, each as its own output record, to the shared spread-results list
(leaving the item slots untouched); and every loop iteration, whatever its
kind, only ever appends to that shared list — so the SELECT outputs of all
input items are flattened in order into one combined list. -/
theorem select_branch_spreads_rows (env : Env) (p : ItemParams) (idx : Nat)
    (st : LoopState) (a : Json) (rows : List Json)
    (hsel : p.query_type = "SELECT")
    (hparse : env.parseJson p.args = Except.ok a)
    (hall : env.dbAll (dbPathOf env p.dbName) p.query a = Except.ok rows) :
    (tryItemP env p idx st =
      ({ st with
          fs := { st.fs with
                    files := addFileIfAbsent st.fs.files (dbPathOf env p.dbName) },
          opened := st.opened ++ [dbPathOf env p.dbName],
          spreadResults := st.spreadResults ++ rows }, none)) ∧
    (∀ (env2 : Env) (j : Nat) (st2 : LoopState),
      ∃ tail, ((processItem env2 j st2).1).spreadResults = st2.spreadResults ++ tail) := by
  constructor
  · unfold tryItemP
    dsimp only
    rw [hsel]
    rw [if_neg (by decide : ¬ ("SELECT" = "DELETE_DATABASE")), hparse]
    dsimp only
    rw [if_pos rfl, hall]
  · exact fun env2 j st2 => processItem_spread_extends env2 j st2

/-- Witness for C3: a SELECT returning one row appends exactly that row. -/
theorem select_branch_spreads_rows_witness :
    tryItemP baseEnv baseParams 0 stBase =
      ({ stBase with
          fs := { stBase.fs with
                    files := addFileIfAbsent stBase.fs.files (dbPathOf baseEnv "orders") },
          opened := stBase.opened ++ [dbPathOf baseEnv "orders"],
          spreadResults := stBase.spreadResults ++ [rowA] }, none) :=
  (select_branch_spreads_rows baseEnv baseParams 0 stBase (Json.obj []) [rowA]
    rfl rfl rfl).1

/-- Claim C4: for an input record of kind DELETE_DATABASE, if the database
file exists it is removed and the item's payload becomes the deleted-successfully
record, otherwise the filesystem is untouched and the payload becomes the
does-not-exist record; in neither case is a driver handle opened (the
opened-handle log is unchanged), and the loop proceeds to the next item. -/
theorem delete_database_branch (env : Env) (idx : Nat) (st : LoopState) (c : Nat)
    (hdel : (env.params idx).query_type = "DELETE_DATABASE") :
    (st.fs.files.contains (dbPathOf env (env.params idx).dbName) = true →
      processItem env idx st =
        ({ st with
            fs := { st.fs with
                      files := st.fs.files.erase (dbPathOf env (env.params idx).dbName) },
            items := st.items.set idx (deleteSuccessMsg (env.params idx).dbName) }, none)) ∧
    (st.fs.files.contains (dbPathOf env (env.params idx).dbName) = false →
      processItem env idx st =
        ({ st with
            items := st.items.set idx (deleteMissingMsg (env.params idx).dbName) }, none)) ∧
    ((processItem env idx st).1).opened = st.opened ∧
    execLoop env idx (c + 1) st = execLoop env (idx + 1) c (processItem env idx st).1 := by
  have htry : tryItemP env (env.params idx) idx st =
      (if st.fs.files.contains (dbPathOf env (env.params idx).dbName) then
        ({ st with
            fs := { st.fs with
                      files := st.fs.files.erase (dbPathOf env (env.params idx).dbName) },
            items := st.items.set idx (deleteSuccessMsg (env.params idx).dbName) }, none)
      else
        ({ st with
            items := st.items.set idx (deleteMissingMsg (env.params idx).dbName) }, none)) := by
    unfold tryItemP
    dsimp only
    rw [if_pos hdel]
  by_cases hc : st.fs.files.contains (dbPathOf env (env.params idx).dbName) = true
  · rw [if_pos hc] at htry
    have hproc : processItem env idx st =
        ({ st with
            fs := { st.fs with
                      files := st.fs.files.erase (dbPathOf env (env.params idx).dbName) },
            items := st.items.set idx (deleteSuccessMsg (env.params idx).dbName) }, none) := by
      unfold processItem
      rw [htry]
    refine ⟨fun _ => hproc, fun hc2 => absurd hc (by rw [hc2]; simp), ?_, ?_⟩
    · rw [hproc]
    · conv_lhs => unfold execLoop
      rw [hproc]
  · have hc' : st.fs.files.contains (dbPathOf env (env.params idx).dbName) = false := by
      simpa using hc
    rw [if_neg (by rw [hc']; simp)] at htry
    have hproc : processItem env idx st =
        ({ st with
            items := st.items.set idx (deleteMissingMsg (env.params idx).dbName) }, none) := by
      unfold processItem
      rw [htry]
    refine ⟨fun hc2 => absurd hc2 hc, fun _ => hproc, ?_, ?_⟩
    · rw [hproc]
    · conv_lhs => unfold execLoop
      rw [hproc]

/-- Witness for C4: deleting an existing `orders.db` removes the file and
writes the success payload. -/
theorem delete_database_branch_witness :
    processItem delEnv 0 stWithDb =
      ({ stWithDb with
          fs := { stWithDb.fs with
                    files := stWithDb.fs.files.erase (dbPathOf delEnv "orders") },
          items := stWithDb.items.set 0 (deleteSuccessMsg "orders") }, none) :=
  (delete_database_branch delEnv 0 stWithDb 0 rfl).1 rfl

/-- Claim C5: when `args` is not valid JSON and continue-on-fail is disabled,
the iteration leaves the state completely unchanged (in particular no driver
handle is opened and no item payload is written) and the loop stops at that
item, propagating the parse error, so no later item is processed. -/
theorem parse_error_aborts (env : Env) (idx : Nat) (st : LoopState) (e : String)
    (c : Nat)
    (hcof : env.continueOnFail = false)
    (hdel : (env.params idx).query_type ≠ "DELETE_DATABASE")
    (hparse : env.parseJson (env.params idx).args = Except.error e) :
    processItem env idx st = (st, some e) ∧
    execLoop env idx (c + 1) st = (st, some e) := by
  have htry : tryItemP env (env.params idx) idx st = (st, some e) := by
    unfold tryItemP
    dsimp only
    rw [if_neg hdel, hparse]
  have hproc : processItem env idx st = (st, some e) := by
    unfold processItem
    rw [htry]
    dsimp only
    rw [if_neg (by simp [hcof])]
  refine ⟨hproc, ?_⟩
  conv_lhs => unfold execLoop
  rw [hproc]

/-- Witness for C5: with `args := "not json"` the loop over two items aborts
at the first item with the parse error and an unchanged state. -/
theorem parse_error_aborts_witness :
    processItem badArgsEnv 0 stBase = (stBase, some "Unexpected token") ∧
    execLoop badArgsEnv 0 (1 + 1) stBase = (stBase, some "Unexpected token") :=
  parse_error_aborts badArgsEnv 0 stBase "Unexpected token" 1 rfl (by decide) rfl

/-- Claim C6: when continue-on-fail is enabled and the `try` body of an item
throws any error (malformed args JSON, driver failure, ...), that item's
payload becomes `{error: <message>}` and the loop continues with the next
item. -/
theorem continue_on_fail_isolates (env : Env) (idx : Nat) (st st1 : LoopState)
    (e : String) (c : Nat)
    (hcof : env.continueOnFail = true)
    (htry : tryItemP env (env.params idx) idx st = (st1, some e)) :
    processItem env idx st =
      ({ st1 with items := st1.items.set idx (errorPayload e) }, none) ∧
    execLoop env idx (c + 1) st =
      execLoop env (idx + 1) c { st1 with items := st1.items.set idx (errorPayload e) } := by
  have hproc : processItem env idx st =
      ({ st1 with items := st1.items.set idx (errorPayload e) }, none) := by
    unfold processItem
    rw [htry]
    dsimp only
    rw [if_pos (by simp [hcof])]
  refine ⟨hproc, ?_⟩
  conv_lhs => unfold execLoop
  rw [hproc]

/-- Witness for C6: with continue-on-fail enabled, a parse failure writes the
error payload into the item and the loop proceeds to the next item. -/
theorem continue_on_fail_isolates_witness :
    processItem cofEnv 0 stBase =
      ({ stBase with items := stBase.items.set 0 (errorPayload "Unexpected token") }, none) ∧
    execLoop cofEnv 0 (1 + 1) stBase =
      execLoop cofEnv (0 + 1) 1
        { stBase with items := stBase.items.set 0 (errorPayload "Unexpected token") } :=
  continue_on_fail_isolates cofEnv 0 stBase stBase "Unexpected token" 1 rfl rfl

/-- Claim C7: any two query-type values that are neither SELECT nor
DELETE_DATABASE (AUTO, CREATE, DELETE, INSERT, UPDATE, or anything else)
produce identical behaviour on the same query and arguments: no query-type
detection is performed for AUTO. -/
theorem auto_matches_mutating_kinds (env : Env) (p : ItemParams) (idx : Nat)
    (st : LoopState) (qt1 qt2 : String)
    (h1s : qt1 ≠ "SELECT") (h1d : qt1 ≠ "DELETE_DATABASE")
    (h2s : qt2 ≠ "SELECT") (h2d : qt2 ≠ "DELETE_DATABASE") :
    tryItemP env { p with query_type := qt1 } idx st =
    tryItemP env { p with query_type := qt2 } idx st := by
  unfold tryItemP
  dsimp only
  rw [if_neg h1d, if_neg h2d]
  cases h : env.parseJson p.args with
  | error e => rfl
  | ok a =>
    dsimp only
    rw [if_neg h1s, if_neg h2s]

/-- Witness for C7: AUTO behaves exactly like CREATE on the same item. -/
theorem auto_matches_mutating_kinds_witness :
    tryItemP baseEnv { baseParams with query_type := "AUTO" } 0 stBase =
    tryItemP baseEnv { baseParams with query_type := "CREATE" } 0 stBase :=
  auto_matches_mutating_kinds baseEnv baseParams 0 stBase "AUTO" "CREATE"
    (by decide) (by decide) (by decide) (by decide)

/-- Claim C8: with workflow id `wf1` and database name `orders`, the resolved
database file path is exactly `./databases/wf1/orders.db` relative to the
process's current working directory; and directory creation happens exactly
once, before the per-item loop (the final directory set is the one produced
by the single pre-loop `ensureWorkflowDir` step), leaving the per-workflow
directory in existence. -/
theorem resolved_path_and_single_mkdir (env : Env) (idx : Nat)
    (inputItems : List Json) (fs0 : FS)
    (hwid : env.workflowIdOpt = some "wf1")
    (hname : (env.params idx).dbName = "orders") :
    dbPathOf env (env.params idx).dbName = env.cwd ++ "/databases/wf1/orders.db" ∧
    (execute env inputItems fs0).fs.dirs = (ensureWorkflowDir env fs0).dirs ∧
    workflowDirOf env ∈ (execute env inputItems fs0).fs.dirs := by
  have hdir : workflowDirOf env = env.cwd ++ "/databases/wf1" := by
    unfold workflowDirOf effectiveWorkflowId
    rw [hwid]
    dsimp only
    rw [if_neg (by decide), String.append_assoc]
    rfl
  have hdirs : (execute env inputItems fs0).fs.dirs
      = (ensureWorkflowDir env fs0).dirs := by
    unfold execute finishOutcome loopOf
    dsimp only
    rw [execLoop_dirs]
    rfl
  refine ⟨?_, hdirs, ?_⟩
  · rw [hname]
    unfold dbPathOf
    rw [hdir, String.append_assoc, String.append_assoc, String.append_assoc]
    rfl
  · rw [hdirs]
    exact workflowDir_mem_ensure env fs0

/-- Witness for C8 at the concrete fixture context. -/
theorem resolved_path_and_single_mkdir_witness :
    dbPathOf baseEnv (baseEnv.params 0).dbName = baseEnv.cwd ++ "/databases/wf1/orders.db" ∧
    (execute baseEnv [Json.null] fsEmpty).fs.dirs = (ensureWorkflowDir baseEnv fsEmpty).dirs ∧
    workflowDirOf baseEnv ∈ (execute baseEnv [Json.null] fsEmpty).fs.dirs :=
  resolved_path_and_single_mkdir baseEnv 0 [Json.null] fsEmpty rfl rfl

/-- The loop behaves identically when every item's `spread` parameter is
overwritten: the parameter is never read. -/
theorem execLoop_ignores_spread (env : Env) (f : Nat → Bool) (count idx : Nat)
    (st : LoopState) :
    execLoop { env with params := fun i => setSpread (env.params i) (f i) } idx count st
      = execLoop env idx count st := by
  induction count generalizing idx st with
  | zero => rfl
  | succ c ih =>
    have hp : processItem { env with params := fun i => setSpread (env.params i) (f i) } idx st
        = processItem env idx st := rfl
    conv_lhs => unfold execLoop
    conv_rhs => unfold execLoop
    rw [hp]
    cases hpr : processItem env idx st with
    | mk st1 eo =>
      cases eo with
      | none => exact ih (idx + 1) st1
      | some e => rfl

/-- `execute` behaves identically when every item's `spread` parameter is
overwritten. -/
theorem execute_setSpread (env : Env) (f : Nat → Bool)
    (inputItems : List Json) (fs0 : FS) :
    execute { env with params := fun i => setSpread (env.params i) (f i) } inputItems fs0
      = execute env inputItems fs0 :=
  congrArg finishOutcome
    ((execLoop_ignores_spread env f inputItems.length 0
      (initialState { env with params := fun i => setSpread (env.params i) (f i) }
        inputItems fs0)).trans rfl)

/-- An invocation context that differs from another only in the per-item
`spread` values is the other context with its `spread` values overwritten. -/
theorem env_eq_setSpread (e1 e2 : Env)
    (hcwd : e1.cwd = e2.cwd) (hwid : e1.workflowIdOpt = e2.workflowIdOpt)
    (hcof : e1.continueOnFail = e2.continueOnFail)
    (hpj : e1.parseJson = e2.parseJson) (hall : e1.dbAll = e2.dbAll)
    (hrun : e1.dbRun = e2.dbRun)
    (hparams : ∀ i, (e1.params i).dbName = (e2.params i).dbName ∧
      (e1.params i).query_type = (e2.params i).query_type ∧
      (e1.params i).query = (e2.params i).query ∧
      (e1.params i).args = (e2.params i).args) :
    e1 = { e2 with params := fun i => setSpread (e2.params i) ((e1.params i).spread) } := by
  cases e1 with
  | mk cwd1 wid1 cof1 ps1 pj1 da1 dr1 =>
    cases e2 with
    | mk cwd2 wid2 cof2 ps2 pj2 da2 dr2 =>
      dsimp only at hcwd hwid hcof hpj hall hrun hparams ⊢
      subst hcwd hwid hcof hpj hall hrun
      congr 1
      funext i
      obtain ⟨h1, h2, h3, h4⟩ := hparams i
      cases hp1 : ps1 i with
      | mk d q qr a s =>
        cases hp2 : ps2 i with
        | mk d2 q2 qr2 a2 s2 =>
          rw [hp1, hp2] at h1 h2 h3 h4
          dsimp only at h1 h2 h3 h4
          unfold setSpread
          dsimp only
          rw [h1, h2, h3, h4]

/-- Claim C9: two invocations of `execute` that are identical except for the
per-item values of the `spread` parameter produce identical outcomes — the
`spread` parameter is never read by the execution logic. -/
theorem spread_parameter_has_no_effect (e1 e2 : Env)
    (inputItems : List Json) (fs0 : FS)
    (hcwd : e1.cwd = e2.cwd) (hwid : e1.workflowIdOpt = e2.workflowIdOpt)
    (hcof : e1.continueOnFail = e2.continueOnFail)
    (hpj : e1.parseJson = e2.parseJson) (hall : e1.dbAll = e2.dbAll)
    (hrun : e1.dbRun = e2.dbRun)
    (hparams : ∀ i, (e1.params i).dbName = (e2.params i).dbName ∧
      (e1.params i).query_type = (e2.params i).query_type ∧
      (e1.params i).query = (e2.params i).query ∧
      (e1.params i).args = (e2.params i).args) :
    execute e1 inputItems fs0 = execute e2 inputItems fs0 := by
  conv_lhs => rw [env_eq_setSpread e1 e2 hcwd hwid hcof hpj hall hrun hparams]
  exact execute_setSpread e2 (fun i => (e1.params i).spread) inputItems fs0

/-- Witness for C9: flipping `spread` to true changes nothing about the
invocation's outcome. -/
theorem spread_parameter_has_no_effect_witness :
    execute spreadTrueEnv [Json.null] fsEmpty = execute baseEnv [Json.null] fsEmpty :=
  spread_parameter_has_no_effect spreadTrueEnv baseEnv [Json.null] fsEmpty
    rfl rfl rfl rfl rfl rfl (fun _ => ⟨rfl, rfl, rfl, rfl⟩)

/-- Claim C10: when the host's workflow descriptor is absent or its id is
falsy (modelled as `none`, covering `undefined`/`null`, or the empty string),
the literal identifier `default_workflow` is used, so database files resolve
under `./databases/default_workflow/`. -/
theorem default_workflow_fallback (env : Env)
    (h : env.workflowIdOpt = none ∨ env.workflowIdOpt = some "") :
    effectiveWorkflowId env.workflowIdOpt = "default_workflow" ∧
    workflowDirOf env = env.cwd ++ "/databases/default_workflow" ∧
    ∀ dbName, dbPathOf env dbName =
      env.cwd ++ "/databases/default_workflow/" ++ dbName ++ ".db" := by
  have hid : effectiveWorkflowId env.workflowIdOpt = "default_workflow" := by
    rcases h with h | h <;> rw [h] <;> rfl
  have hdir : workflowDirOf env = env.cwd ++ "/databases/default_workflow" := by
    unfold workflowDirOf
    rw [hid, String.append_assoc]
    rfl
  refine ⟨hid, hdir, fun dbName => ?_⟩
  unfold dbPathOf
  rw [hdir, String.append_assoc, String.append_assoc, String.append_assoc]
  rw [show env.cwd ++ "/databases/default_workflow/" ++ dbName ++ ".db"
      = env.cwd ++ ("/databases/default_workflow/" ++ (dbName ++ ".db")) from by
    rw [String.append_assoc, String.append_assoc]]
  rfl

/-- Witness for C10: with no workflow id the `orders` database resolves under
`databases/default_workflow/`. -/
theorem default_workflow_fallback_witness :
    workflowDirOf noWidEnv = noWidEnv.cwd ++ "/databases/default_workflow" ∧
    dbPathOf noWidEnv "orders" =
      noWidEnv.cwd ++ "/databases/default_workflow/" ++ "orders" ++ ".db" :=
  ⟨(default_workflow_fallback noWidEnv (Or.inl rfl)).2.1,
   (default_workflow_fallback noWidEnv (Or.inl rfl)).2.2 "orders"⟩

end SqliteNode
